import Mathlib

/-!
Verification of the async-variadic library (src/src/lib.rs).

The library defines one trait,

  pub trait AsyncFn<Args, Output> { async fn call(&self, args: Args) -> Output; }

and a macro `ary!` that, for each arity N from 0 to 12, emits

  impl<Func, Fut, A1..AN> AsyncFn<(A1,..,AN), Fut::Output> for Func
  where Func: Fn(A1,..,AN) -> Fut, Fut: Future
  { async fn call(&self, (A1,..,AN): (A1,..,AN)) -> Fut::Output { (self)(A1,..,AN).await } }

Embedding choices:
  * A Rust future is modelled as `Future α`, a value carrying the outcome obtained by
    driving it to completion: either a normal result (`Outcome.ok`) or an abnormal
    termination, i.e. a panic (`Outcome.panic` with its message).  Awaiting a future
    inside an async fn propagates a panic unchanged, which the model reflects by the
    generated `call` simply forwarding the inner future's `poll`.
  * An N-ary Rust function is a curried Lean function `A1 → ... → AN → Future Out`;
    a nullary one (`Fn() -> Fut`) is `Unit → Future Out`.
  * The Rust tuple `(A1,..,AN)` is the right-nested product `A1 × ... × AN × PUnit`,
    so that each arity has a structurally distinct aggregate type and the empty Rust
    tuple `()` is `PUnit`, mirroring the distinctness of Rust tuple types.
  * The trait is a type class `AsyncFn`, with one instance per `ary!` invocation.
  * Compile-time acceptance/rejection by arity is modelled at the arity level:
    `supportedArities` is the list of arities the macro is invoked at, and a function
    of arity k matches the generated impl for arity n exactly when k = n (the Rust
    bound `Func: Fn(A1,..,An) -> Fut` holds only for functions of exactly n
    parameters).
-/

namespace AsyncVariadic

/-- Outcome of driving a future to completion: a value, or an abnormal
termination (panic) carrying its message. -/
inductive Outcome (α : Type) : Type where
  | ok : α → Outcome α
  | panic : String → Outcome α
deriving DecidableEq

/-- A Rust future, modelled by the outcome it yields when driven to completion. -/
structure Future (α : Type) : Type where
  poll : Outcome α
deriving DecidableEq

/-- The trait `AsyncFn<Args, Output>`: `async fn call(&self, args: Args) -> Output`.
Since `call` is an async fn, invoking it returns a future of the output. -/
class AsyncFn (Func : Type) (Args : Type) (Output : outParam Type) where
  call : Func → Args → Future Output

/-- ary! {} -/
instance ary0 {Out : Type} : AsyncFn (Unit → Future Out) PUnit Out where
  call self _ := ⟨(self ()).poll⟩

/-- ary! { A } -/
instance ary1 {A Out : Type} : AsyncFn (A → Future Out) (A × PUnit) Out where
  call self args := match args with
    | (a, _) => ⟨(self a).poll⟩

/-- ary! { A B } -/
instance ary2 {A B Out : Type} :
    AsyncFn (A → B → Future Out) (A × B × PUnit) Out where
  call self args := match args with
    | (a, b, _) => ⟨(self a b).poll⟩

/-- ary! { A B C } -/
instance ary3 {A B C Out : Type} :
    AsyncFn (A → B → C → Future Out) (A × B × C × PUnit) Out where
  call self args := match args with
    | (a, b, c, _) => ⟨(self a b c).poll⟩

/-- ary! { A B C D } -/
instance ary4 {A B C D Out : Type} :
    AsyncFn (A → B → C → D → Future Out) (A × B × C × D × PUnit) Out where
  call self args := match args with
    | (a, b, c, d, _) => ⟨(self a b c d).poll⟩

/-- ary! { A B C D E } -/
instance ary5 {A B C D E Out : Type} :
    AsyncFn (A → B → C → D → E → Future Out) (A × B × C × D × E × PUnit) Out where
  call self args := match args with
    | (a, b, c, d, e, _) => ⟨(self a b c d e).poll⟩

/-- ary! { A B C D E F } -/
instance ary6 {A B C D E F Out : Type} :
    AsyncFn (A → B → C → D → E → F → Future Out)
      (A × B × C × D × E × F × PUnit) Out where
  call self args := match args with
    | (a, b, c, d, e, f, _) => ⟨(self a b c d e f).poll⟩

/-- ary! { A B C D E F G } -/
instance ary7 {A B C D E F G Out : Type} :
    AsyncFn (A → B → C → D → E → F → G → Future Out)
      (A × B × C × D × E × F × G × PUnit) Out where
  call self args := match args with
    | (a, b, c, d, e, f, g, _) => ⟨(self a b c d e f g).poll⟩

/-- ary! { A B C D E F G H } -/
instance ary8 {A B C D E F G H Out : Type} :
    AsyncFn (A → B → C → D → E → F → G → H → Future Out)
      (A × B × C × D × E × F × G × H × PUnit) Out where
  call self args := match args with
    | (a, b, c, d, e, f, g, h, _) => ⟨(self a b c d e f g h).poll⟩

/-- ary! { A B C D E F G H I } -/
instance ary9 {A B C D E F G H I Out : Type} :
    AsyncFn (A → B → C → D → E → F → G → H → I → Future Out)
      (A × B × C × D × E × F × G × H × I × PUnit) Out where
  call self args := match args with
    | (a, b, c, d, e, f, g, h, i, _) => ⟨(self a b c d e f g h i).poll⟩

/-- ary! { A B C D E F G H I J } -/
instance ary10 {A B C D E F G H I J Out : Type} :
    AsyncFn (A → B → C → D → E → F → G → H → I → J → Future Out)
      (A × B × C × D × E × F × G × H × I × J × PUnit) Out where
  call self args := match args with
    | (a, b, c, d, e, f, g, h, i, j, _) => ⟨(self a b c d e f g h i j).poll⟩

/-- ary! { A B C D E F G H I J K } -/
instance ary11 {A B C D E F G H I J K Out : Type} :
    AsyncFn (A → B → C → D → E → F → G → H → I → J → K → Future Out)
      (A × B × C × D × E × F × G × H × I × J × K × PUnit) Out where
  call self args := match args with
    | (a, b, c, d, e, f, g, h, i, j, k, _) => ⟨(self a b c d e f g h i j k).poll⟩

/-- ary! { A B C D E F G H I J K L } -/
instance ary12 {A B C D E F G H I J K L Out : Type} :
    AsyncFn (A → B → C → D → E → F → G → H → I → J → K → L → Future Out)
      (A × B × C × D × E × F × G × H × I × J × K × L × PUnit) Out where
  call self args := match args with
    | (a, b, c, d, e, f, g, h, i, j, k, l, _) => ⟨(self a b c d e f g h i j k l).poll⟩

/-- The arities at which `ary!` is invoked in src/src/lib.rs (lines 32-44). -/
def supportedArities : List Nat := [0, 1, 2, 3, 4, 5, 6, 7, 8, 9, 10, 11, 12]

/-- A function of arity `fnArity` satisfies the Rust bound `Func: Fn(A1,..,An) -> Fut`
of the impl generated for arity `implArity` exactly when the arities coincide. -/
def fnMatchesImpl (fnArity implArity : Nat) : Bool := fnArity == implArity

/-- Whether a function of the given arity satisfies some generated `AsyncFn` impl,
i.e. whether the program containing such a use type-checks. -/
def fnSatisfiesAsyncFn (fnArity : Nat) : Bool :=
  supportedArities.any (fun n => fnMatchesImpl fnArity n)

/-- The generated impls applicable to a function of the given arity. -/
def fnMatchingImpls (fnArity : Nat) : List Nat :=
  supportedArities.filter (fun n => fnMatchesImpl fnArity n)

/-- Modelled from the spec: the Statically-Typed Callable Abstraction (spec section 4.3)
has no implementation under src/; src/src/lib.rs contains only the Dynamic-Result
trait above.  Per the spec's words, this sibling interface has a contract
`call(self, args: Args) -> Future` where `Future` is an associated type unique to the
implementation; `call` synchronously returns a not-yet-resolved future value, no
suspension happens inside `call` itself, and the caller drives the returned future. -/
class StaticAsyncFn (Func : Type) (Args : Type) (Output : outParam Type) where
  Fut : Type
  call : Func → Args → Fut
  drive : Fut → Outcome Output

/-- Modelled from the spec: static-profile impl for arity 0 — the underlying
function's own future type is exposed unchanged as the associated future. -/
instance staticAry0 {Out : Type} : StaticAsyncFn (Unit → Future Out) PUnit Out where
  Fut := Future Out
  call self _ := self ()
  drive fut := fut.poll

/-- Modelled from the spec: static-profile impl for arity 1 — zero wrapping,
`call` forwards the tuple's field and returns the underlying future as is. -/
instance staticAry1 {A Out : Type} : StaticAsyncFn (A → Future Out) (A × PUnit) Out where
  Fut := Future Out
  call self args := match args with
    | (a, _) => self a
  drive fut := fut.poll

/-- Modelled from the spec: static-profile impl for arity 2. -/
instance staticAry2 {A B Out : Type} :
    StaticAsyncFn (A → B → Future Out) (A × B × PUnit) Out where
  Fut := Future Out
  call self args := match args with
    | (a, b, _) => self a b
  drive fut := fut.poll

/-- Test function `async fn with_req(_req: String) -> &'static str { "foo" }`
(src/src/lib.rs lines 87-89). -/
def with_req (_req : String) : Future String := ⟨Outcome.ok "foo"⟩

/-- Test struct `Test { a: bool, b: u8 }` (src/src/lib.rs lines 91-94). -/
structure Test : Type where
  a : Bool
  b : Nat

/-- Test method `async fn bleh(&self) -> &u8 { &self.b }` (src/src/lib.rs
lines 96-100), as the unbound method reference `Test::bleh` taking the
receiver as its one parameter. -/
def Test.bleh (self : Test) : Future Nat := ⟨Outcome.ok self.b⟩

/-- A method reference whose receiver is already fixed: the receiver `t` is folded
into the callable value, which is left with the method's remaining (empty)
parameter list. -/
def boundBleh (t : Test) : Unit → Future Nat := fun _ => t.bleh

/-- One invocation through the trait.  `call` takes the callable by shared
reference (`&self`), so the callable value handed back to the caller is the
same value, unconsumed and unmodified. -/
def invoke {Func Args Output : Type} [AsyncFn Func Args Output]
    (f : Func) (args : Args) : Func × Future Output :=
  (f, AsyncFn.call f args)

/-- A sequence of invocations, threading the callable value through each call
as Rust's borrow of `&self` does, collecting the outcome of each call. -/
def invokeAll {Func Args Output : Type} [AsyncFn Func Args Output]
    (f : Func) : List Args → Func × List (Outcome Output)
  | [] => (f, [])
  | args :: rest =>
    let step := invoke f args
    let next := invokeAll step.1 rest
    (next.1, step.2.poll :: next.2)

/-- C1: Pass-through identity.  For every supported arity N (0 ≤ N ≤ 12), every
underlying async function f of arity N and every argument tuple of the matching
element types, invoking the generated `AsyncFn::call` with the tuple and awaiting
yields exactly what calling f directly with the tuple's fields, in order, and
awaiting its result yields: the impl destructures the tuple, forwards the fields
positionally, and returns exactly what f returns, with no transformation. -/
theorem pass_through_identity :
    (∀ (Out : Type) (f : Unit → Future Out),
      (AsyncFn.call f PUnit.unit).poll = (f ()).poll) ∧
    (∀ (A Out : Type) (f : A → Future Out) (a : A),
      (AsyncFn.call f (a, PUnit.unit)).poll = (f a).poll) ∧
    (∀ (A B Out : Type) (f : A → B → Future Out) (a : A) (b : B),
      (AsyncFn.call f (a, b, PUnit.unit)).poll = (f a b).poll) ∧
    (∀ (A B C Out : Type) (f : A → B → C → Future Out) (a : A) (b : B) (c : C),
      (AsyncFn.call f (a, b, c, PUnit.unit)).poll = (f a b c).poll) ∧
    (∀ (A B C D Out : Type) (f : A → B → C → D → Future Out) (a : A) (b : B) (c : C)
      (d : D),
      (AsyncFn.call f (a, b, c, d, PUnit.unit)).poll = (f a b c d).poll) ∧
    (∀ (A B C D E Out : Type) (f : A → B → C → D → E → Future Out) (a : A) (b : B)
      (c : C) (d : D) (e : E),
      (AsyncFn.call f (a, b, c, d, e, PUnit.unit)).poll = (f a b c d e).poll) ∧
    (∀ (A B C D E F Out : Type) (fn : A → B → C → D → E → F → Future Out) (a : A)
      (b : B) (c : C) (d : D) (e : E) (f : F),
      (AsyncFn.call fn (a, b, c, d, e, f, PUnit.unit)).poll = (fn a b c d e f).poll) ∧
    (∀ (A B C D E F G Out : Type) (fn : A → B → C → D → E → F → G → Future Out)
      (a : A) (b : B) (c : C) (d : D) (e : E) (f : F) (g : G),
      (AsyncFn.call fn (a, b, c, d, e, f, g, PUnit.unit)).poll =
        (fn a b c d e f g).poll) ∧
    (∀ (A B C D E F G H Out : Type) (fn : A → B → C → D → E → F → G → H → Future Out)
      (a : A) (b : B) (c : C) (d : D) (e : E) (f : F) (g : G) (h : H),
      (AsyncFn.call fn (a, b, c, d, e, f, g, h, PUnit.unit)).poll =
        (fn a b c d e f g h).poll) ∧
    (∀ (A B C D E F G H I Out : Type)
      (fn : A → B → C → D → E → F → G → H → I → Future Out)
      (a : A) (b : B) (c : C) (d : D) (e : E) (f : F) (g : G) (h : H) (i : I),
      (AsyncFn.call fn (a, b, c, d, e, f, g, h, i, PUnit.unit)).poll =
        (fn a b c d e f g h i).poll) ∧
    (∀ (A B C D E F G H I J Out : Type)
      (fn : A → B → C → D → E → F → G → H → I → J → Future Out)
      (a : A) (b : B) (c : C) (d : D) (e : E) (f : F) (g : G) (h : H) (i : I) (j : J),
      (AsyncFn.call fn (a, b, c, d, e, f, g, h, i, j, PUnit.unit)).poll =
        (fn a b c d e f g h i j).poll) ∧
    (∀ (A B C D E F G H I J K Out : Type)
      (fn : A → B → C → D → E → F → G → H → I → J → K → Future Out)
      (a : A) (b : B) (c : C) (d : D) (e : E) (f : F) (g : G) (h : H) (i : I) (j : J)
      (k : K),
      (AsyncFn.call fn (a, b, c, d, e, f, g, h, i, j, k, PUnit.unit)).poll =
        (fn a b c d e f g h i j k).poll) ∧
    (∀ (A B C D E F G H I J K L Out : Type)
      (fn : A → B → C → D → E → F → G → H → I → J → K → L → Future Out)
      (a : A) (b : B) (c : C) (d : D) (e : E) (f : F) (g : G) (h : H) (i : I) (j : J)
      (k : K) (l : L),
      (AsyncFn.call fn (a, b, c, d, e, f, g, h, i, j, k, l, PUnit.unit)).poll =
        (fn a b c d e f g h i j k l).poll) := by
  refine ⟨?_, ?_, ?_, ?_, ?_, ?_, ?_, ?_, ?_, ?_, ?_, ?_, ?_⟩ <;> intros <;> rfl

/-- C2: Arity coverage.  Every arity from 0 to 12 satisfies the generated
capability (the arity-level acceptance predicate holds, and for each N the type
class instance exists for arbitrary element types), while any arity of 13 or
more matches no generated impl and is rejected. -/
theorem arity_coverage :
    (∀ n : Nat, n ≤ 12 → fnSatisfiesAsyncFn n = true) ∧
    (∀ n : Nat, 13 ≤ n → fnSatisfiesAsyncFn n = false) ∧
    (∀ (Out : Type), Nonempty (AsyncFn (Unit → Future Out) PUnit Out)) ∧
    (∀ (A Out : Type), Nonempty (AsyncFn (A → Future Out) (A × PUnit) Out)) ∧
    (∀ (A B Out : Type),
      Nonempty (AsyncFn (A → B → Future Out) (A × B × PUnit) Out)) ∧
    (∀ (A B C Out : Type),
      Nonempty (AsyncFn (A → B → C → Future Out) (A × B × C × PUnit) Out)) ∧
    (∀ (A B C D Out : Type),
      Nonempty (AsyncFn (A → B → C → D → Future Out) (A × B × C × D × PUnit) Out)) ∧
    (∀ (A B C D E Out : Type),
      Nonempty (AsyncFn (A → B → C → D → E → Future Out)
        (A × B × C × D × E × PUnit) Out)) ∧
    (∀ (A B C D E F Out : Type),
      Nonempty (AsyncFn (A → B → C → D → E → F → Future Out)
        (A × B × C × D × E × F × PUnit) Out)) ∧
    (∀ (A B C D E F G Out : Type),
      Nonempty (AsyncFn (A → B → C → D → E → F → G → Future Out)
        (A × B × C × D × E × F × G × PUnit) Out)) ∧
    (∀ (A B C D E F G H Out : Type),
      Nonempty (AsyncFn (A → B → C → D → E → F → G → H → Future Out)
        (A × B × C × D × E × F × G × H × PUnit) Out)) ∧
    (∀ (A B C D E F G H I Out : Type),
      Nonempty (AsyncFn (A → B → C → D → E → F → G → H → I → Future Out)
        (A × B × C × D × E × F × G × H × I × PUnit) Out)) ∧
    (∀ (A B C D E F G H I J Out : Type),
      Nonempty (AsyncFn (A → B → C → D → E → F → G → H → I → J → Future Out)
        (A × B × C × D × E × F × G × H × I × J × PUnit) Out)) ∧
    (∀ (A B C D E F G H I J K Out : Type),
      Nonempty (AsyncFn (A → B → C → D → E → F → G → H → I → J → K → Future Out)
        (A × B × C × D × E × F × G × H × I × J × K × PUnit) Out)) ∧
    (∀ (A B C D E F G H I J K L Out : Type),
      Nonempty (AsyncFn (A → B → C → D → E → F → G → H → I → J → K → L → Future Out)
        (A × B × C × D × E × F × G × H × I × J × K × L × PUnit) Out)) := by
  refine ⟨?_, ?_, ?_, ?_, ?_, ?_, ?_, ?_, ?_, ?_, ?_, ?_, ?_, ?_, ?_⟩
  · intro n h
    interval_cases n <;> decide
  · intro n h
    simp [fnSatisfiesAsyncFn, fnMatchesImpl, supportedArities]
    omega
  all_goals intros; exact ⟨inferInstance⟩

/-- C2 witness: the coverage theorem applied at the concrete arities 12 and 13. -/
theorem arity_coverage_witness :
    fnSatisfiesAsyncFn 12 = true ∧ fnSatisfiesAsyncFn 13 = false :=
  ⟨arity_coverage.1 12 (by decide), arity_coverage.2.1 13 (by decide)⟩

/-- C3: Error propagation is 100% pass-through.  Whatever the underlying
function's future yields when driven — a success value, an error value embedded
in its result type (`Except`), or an abnormal termination (panic) — is surfaced
unchanged by `call`; the wrapper introduces no failure, suppresses nothing and
augments nothing. -/
theorem error_pass_through :
    (∀ (A E B : Type) (f : A → Future (Except E B)) (x : A) (b : B),
      (f x).poll = Outcome.ok (Except.ok b) →
      (AsyncFn.call f (x, PUnit.unit)).poll = Outcome.ok (Except.ok b)) ∧
    (∀ (A E B : Type) (f : A → Future (Except E B)) (x : A) (e : E),
      (f x).poll = Outcome.ok (Except.error e) →
      (AsyncFn.call f (x, PUnit.unit)).poll = Outcome.ok (Except.error e)) ∧
    (∀ (A B : Type) (f : A → Future B) (x : A) (msg : String),
      (f x).poll = Outcome.panic msg →
      (AsyncFn.call f (x, PUnit.unit)).poll = Outcome.panic msg) := by
  refine ⟨?_, ?_, ?_⟩ <;> (intros; assumption)

/-- C3 witness: pass-through of a concrete embedded error value and of a
concrete panic. -/
theorem error_pass_through_witness :
    (AsyncFn.call
        (fun _ : Nat => (⟨Outcome.ok (Except.error "boom")⟩ : Future (Except String Nat)))
        ((7 : Nat), PUnit.unit)).poll = Outcome.ok (Except.error "boom") ∧
    (AsyncFn.call (fun _ : Nat => (⟨Outcome.panic "kaboom"⟩ : Future Nat))
        ((7 : Nat), PUnit.unit)).poll = Outcome.panic "kaboom" :=
  ⟨error_pass_through.2.1 Nat String Nat
      (fun _ => ⟨Outcome.ok (Except.error "boom")⟩) 7 "boom" rfl,
   error_pass_through.2.2 Nat Nat (fun _ => ⟨Outcome.panic "kaboom"⟩) 7 "kaboom" rfl⟩

/-- C4: Dynamic profile awaits internally.  `call` is itself an async operation:
the future it returns is a fresh future whose resolution is exactly the
underlying function's future awaited to its final outcome, so `call` directly
yields the final output value and the intermediate future is not handed to the
caller. -/
theorem call_awaits_internally :
    (∀ (Out : Type) (f : Unit → Future Out),
      AsyncFn.call f PUnit.unit = Future.mk (f ()).poll) ∧
    (∀ (A Out : Type) (f : A → Future Out) (x : A),
      AsyncFn.call f (x, PUnit.unit) = Future.mk (f x).poll) ∧
    (∀ (A B Out : Type) (f : A → B → Future Out) (x : A) (y : B),
      AsyncFn.call f (x, y, PUnit.unit) = Future.mk (f x y).poll) := by
  refine ⟨?_, ?_, ?_⟩ <;> intros <;> rfl

/-- C5: Statically-Typed variant (modelled from the spec, absent from src/):
its associated future type is the underlying function's own future type exposed
unchanged, `call` synchronously returns that not-yet-resolved future with zero
wrapping, and no suspension happens inside `call` itself — driving the returned
future is what yields the outcome. -/
theorem static_variant :
    (∀ (A Out : Type),
      @StaticAsyncFn.Fut (A → Future Out) (A × PUnit) Out staticAry1 = Future Out) ∧
    (∀ (A Out : Type) (f : A → Future Out) (x : A),
      StaticAsyncFn.call f (x, PUnit.unit) = f x) ∧
    (∀ (A Out : Type) (f : A → Future Out) (x : A),
      StaticAsyncFn.drive (StaticAsyncFn.call f (x, PUnit.unit)) = (f x).poll) ∧
    (∀ (Out : Type) (f : Unit → Future Out),
      StaticAsyncFn.call f PUnit.unit = f ()) ∧
    (∀ (A B Out : Type) (f : A → B → Future Out) (x : A) (y : B),
      StaticAsyncFn.call f (x, y, PUnit.unit) = f x y) := by
  refine ⟨?_, ?_, ?_, ?_, ?_⟩ <;> intros <;> rfl

/-- C6: Zero-argument case.  A nullary function satisfies the capability with the
empty tuple as its aggregate — among all the generated impls, only the arity-0 one
(whose aggregate is the empty tuple) matches a nullary function — and invoking
`call` with the empty tuple yields the function's own result. -/
theorem zero_argument_case :
    fnMatchingImpls 0 = [0] ∧
    (∀ (Out : Type) (f : Unit → Future Out),
      (AsyncFn.call f PUnit.unit).poll = (f ()).poll) ∧
    Nonempty (AsyncFn (Unit → Future Unit) PUnit Unit) :=
  ⟨by decide, fun _ _ => rfl, ⟨inferInstance⟩⟩

/-- C7: Concrete scenario.  Invoking the one-parameter function `with_req`
through the trait with the one-tuple containing "Ada" yields exactly the fixed
string "foo", equal to the function's direct return value for that input. -/
theorem with_req_scenario :
    (AsyncFn.call with_req ("Ada", PUnit.unit)).poll = (with_req "Ada").poll ∧
    (AsyncFn.call with_req ("Ada", PUnit.unit)).poll = Outcome.ok "foo" :=
  ⟨rfl, rfl⟩

/-- C8: Method-as-function.  A method reference with its receiver fixed
(`boundBleh t`) satisfies the capability exactly like a free function, with only
its remaining (empty) parameter list counted toward the arity, and yields the
method's result on the captured receiver; the unbound reference `Test.bleh` is
likewise a plain unary function over the receiver. -/
theorem method_as_function :
    (∀ t : Test, (AsyncFn.call (boundBleh t) PUnit.unit).poll = (t.bleh).poll) ∧
    (∀ t : Test, (AsyncFn.call (boundBleh t) PUnit.unit).poll = Outcome.ok t.b) ∧
    (∀ t : Test, (AsyncFn.call Test.bleh (t, PUnit.unit)).poll = (Test.bleh t).poll) ∧
    Nonempty (AsyncFn (Unit → Future Nat) PUnit Nat) :=
  ⟨fun _ => rfl, fun _ => rfl, fun _ => rfl, ⟨inferInstance⟩⟩

/-- C9: Determinism of the wrapper.  The generated `call` is a pure function of
the callable value and the argument tuple (the impl holds no state and consults
no other input), so two invocations on the same callable with equal argument
tuples yield equal outputs — the wrapper adds no nondeterminism beyond the
underlying function, which the embedding of the source renders as a function
and hence deterministic. -/
theorem wrapper_deterministic :
    (∀ (Out : Type) (f : Unit → Future Out) (args1 args2 : PUnit),
      args1 = args2 → AsyncFn.call f args1 = AsyncFn.call f args2) ∧
    (∀ (A Out : Type) (f : A → Future Out) (args1 args2 : A × PUnit),
      args1 = args2 → AsyncFn.call f args1 = AsyncFn.call f args2) ∧
    (∀ (A B Out : Type) (f : A → B → Future Out) (args1 args2 : A × B × PUnit),
      args1 = args2 → AsyncFn.call f args1 = AsyncFn.call f args2) := by
  refine ⟨?_, ?_, ?_⟩ <;> (intros; simp_all)

/-- C9 witness: the determinism theorem applied at a concrete callable and
concrete equal tuples. -/
theorem wrapper_deterministic_witness :
    AsyncFn.call (fun n : Nat => Future.mk (Outcome.ok n)) ((1 : Nat), PUnit.unit) =
      AsyncFn.call (fun n : Nat => Future.mk (Outcome.ok n)) ((1 : Nat), PUnit.unit) :=
  wrapper_deterministic.2.1 Nat Nat (fun n => Future.mk (Outcome.ok n))
    ((1 : Nat), PUnit.unit) ((1 : Nat), PUnit.unit) rfl

/-- C10: The callable is never consumed or mutated by invocation.  `call` takes
the callable by shared reference, so across any sequence of invocations the
callable value is unchanged after each call, and each invocation's outcome is
exactly the outcome of a single fresh call with its own arguments, independent
of how many invocations preceded it. -/
theorem callable_not_consumed {Func Args Output : Type} [AsyncFn Func Args Output]
    (f : Func) (argsList : List Args) :
    (invokeAll f argsList).1 = f ∧
    (invokeAll f argsList).2 =
      argsList.map (fun args => (AsyncFn.call f args).poll) := by
  induction argsList with
  | nil => exact ⟨rfl, rfl⟩
  | cons a rest ih =>
    refine ⟨?_, ?_⟩
    · simpa [invokeAll, invoke] using ih.1
    · simp [invokeAll, invoke, ih.2]

end AsyncVariadic
